import Mathlib

/-!
Verification of the ContainAI agent-task-runner against its specification.

The definitions below are a shallow embedding of the Rust sources:
  - src/docker/runtime/agent-task-runner/src/lib.rs        (protocol constants, write_cstring_buf)
  - src/src/agent-task-runner/src/channel.rs               (SeqPacketChannel::send_message / recv_message)
  - src/src/agent-task-runner/src/agent_task_runnerd.rs    (daemon: add_client, cstring_from_buf,
      handle_run_session, build_environment_map, sanitize_cwd, handle_notification,
      should_allow_path, resolve_exec_path)
  - src/docker/runtime/agent-task-runner/src/agent_task_runnerctl.rs (client: pump_session, real_main)

Machine integers are modelled as Nat / Int; byte strings as List Nat;
Rust String values as Lean String where the code manipulates them as
unicode text, and as UTF-8 byte lists where the code manipulates raw bytes.
-/

namespace ContainAI

/-! ## Protocol constants (lib.rs) -/

/-- lib.rs: MAX_MESSAGE_SIZE = 128 * 1024. -/
def MAX_MESSAGE_SIZE : Nat := 128 * 1024

/-- lib.rs: PROTOCOL_VERSION = 1. -/
def PROTOCOL_VERSION : Nat := 1

def MSG_REGISTER : Nat := 1
def MSG_RUN_REQUEST : Nat := 2
def MSG_RUN_STDIN : Nat := 3
def MSG_RUN_STDIN_CLOSE : Nat := 4
def MSG_RUN_STDOUT : Nat := 100
def MSG_RUN_STDERR : Nat := 101
def MSG_RUN_EXIT : Nat := 102
def MSG_RUN_ERROR : Nat := 103
def MSG_RUN_STARTED : Nat := 104

def AGENT_NAME_LEN : Nat := 32
def BINARY_NAME_LEN : Nat := 128

/-- u32::MAX, the only size bound send_message checks. -/
def U32_MAX : Nat := 4294967295

/-- Size in bytes of AgentTaskRunnerMsgHeader (three u32 fields). -/
def HEADER_SIZE : Nat := 12

/-- ASCII byte content of a Lean string literal.  Only applied to ASCII
literals in this development, for which Char.toNat is the UTF-8 byte. -/
def strBytes (s : String) : List Nat := s.data.map Char.toNat

/-! ## Framed channel (channel.rs) -/

/-- The frame handed to sendmsg: header fields plus payload length.
The header length field is a u32, hence the mod 2^32 (no-op whenever the
guard below passed). -/
structure SentFrame where
  msg_type : Nat
  length : Nat
  payloadLen : Nat
  deriving DecidableEq, Repr

/-- channel.rs SeqPacketChannel::send_message, modelled on the payload
length: the only validation is payload.len() > u32::MAX; otherwise the
header+payload iovec is handed to sendmsg (i.e. transmitted). -/
def send_message (msg_type : Nat) (payloadLen : Nat) : Except String SentFrame :=
  if payloadLen > U32_MAX then
    Except.error "payload too large"
  else
    Except.ok { msg_type := msg_type, length := payloadLen % 2 ^ 32, payloadLen := payloadLen }

/-- channel.rs SeqPacketChannel::recv_message, modelled on datagram size:
the receive buffer is HEADER_SIZE + MAX_MESSAGE_SIZE bytes, so any larger
datagram is truncated by the kernel (MSG_TRUNC) and rejected. Returns the
payload length on success. -/
def recv_message_size_check (datagramBytes : Nat) : Except String Nat :=
  if datagramBytes = 0 then
    Except.ok 0
  else if datagramBytes < HEADER_SIZE then
    Except.error "message shorter than header"
  else if datagramBytes > HEADER_SIZE + MAX_MESSAGE_SIZE then
    Except.error "message truncated"
  else
    Except.ok (datagramBytes - HEADER_SIZE)

/-! ## Registration C strings (lib.rs write_cstring_buf, daemon cstring_from_buf) -/

/-- UTF-8 bytes of the literal "unknown". -/
def unknownLabelBytes : List Nat := strBytes "unknown"

/-- lib.rs write_cstring_buf: the `trimmed` selection.  `Some(val)` with
non-empty val wins, else a non-empty fallback, else "unknown". -/
def chooseTrimmed (value : Option (List Nat)) (fallback : List Nat) : List Nat :=
  match value with
  | some v => if v.isEmpty then (if fallback.isEmpty then unknownLabelBytes else fallback) else v
  | none => if fallback.isEmpty then unknownLabelBytes else fallback

/-- lib.rs write_cstring_buf on a buffer of length n: zero-fill, then copy
min(|trimmed|, n-1) bytes (n - 1 is Rust saturating_sub, which is Nat
subtraction). The result is the final buffer content. -/
def write_cstring_buf (n : Nat) (value : Option (List Nat)) (fallback : List Nat) : List Nat :=
  let trimmed := chooseTrimmed value fallback
  let copyLen := min trimmed.length (n - 1)
  trimmed.take copyLen ++ List.replicate (n - copyLen) 0

/-- agent_task_runnerd.rs cstring_from_buf: take bytes up to the first NUL
(or the whole buffer), which the code then decodes lossily as UTF-8. The
byte-level content is modelled here; takeWhile (· ≠ 0) equals taking
`position of first 0, else len` bytes. -/
def cstring_from_buf (buf : List Nat) : List Nat := buf.takeWhile (· ≠ 0)

/-! ## Client registration (daemon accept_client / add_client) -/

/-- lib.rs AgentTaskRunnerRegister. -/
structure AgentTaskRunnerRegister where
  version : Nat
  pid : Nat
  agent_name : List Nat
  binary_name : List Nat
  deriving DecidableEq, Repr

/-- Daemon RunnerClient slot content. notify_fd is modelled by whether an
fd was attached. -/
structure RunnerClient where
  has_notify_fd : Bool
  pid : Nat
  agent : List Nat
  binary : List Nat
  deriving DecidableEq, Repr

/-- agent_task_runnerd.rs add_client: put the registration in the first
free slot and emit a "register" audit entry; error "too many clients" when
the table is full.  NOTE: the function inspects payload.version nowhere. -/
def add_client (clients : List (Option RunnerClient)) (notify_fd : Bool)
    (payload : AgentTaskRunnerRegister) :
    Except String (List (Option RunnerClient) × List String) :=
  match clients with
  | [] => Except.error "too many clients"
  | none :: rest =>
      let client : RunnerClient :=
        { has_notify_fd := notify_fd
          pid := payload.pid
          agent := cstring_from_buf payload.agent_name
          binary := cstring_from_buf payload.binary_name }
      Except.ok (some client :: rest, ["register"])
  | some c :: rest =>
      match add_client rest notify_fd payload with
      | Except.ok (rest', log) => Except.ok (some c :: rest', log)
      | Except.error e => Except.error e

/-! ## Exit-code resolution (agent_task_runnerctl.rs) -/

/-- agent_task_runnerctl.rs pump_session, MSG_RUN_EXIT arm:
exit.code.or_else(|| exit.success.then_some(0)).unwrap_or_else(|| exit.signal.unwrap_or(1) + 128). -/
def pump_session_exit_code (code : Option Int) (signal : Option Int) (success : Bool) : Int :=
  ((code.orElse fun _ => if success then some 0 else none).getD (signal.getD 1 + 128))

/-- agent_task_runnerctl.rs real_main, RunOutcome::Exit arm: code 0 returns
Ok (the process then exits 0), any other code is passed to process::exit. -/
def real_main_exit (code : Int) : Int :=
  if code = 0 then 0 else code

/-- The spec's exit-code resolution rule, in its own words:
`code ?? (success ? 0 : (signal ?? 1) + 128)`. -/
def specExitCode (code : Option Int) (signal : Option Int) (success : Bool) : Int :=
  match code with
  | some c => c
  | none => if success then 0 else signal.getD 1 + 128

/-! ## Run requests, environment map and cwd (daemon) -/

/-- agent_task_runnerd.rs RunRequest (deserialized JSON).  The env map is a
BTreeMap, modelled as an association list with pairwise-distinct keys. -/
structure RunRequest where
  argv : List String
  env : Option (List (String × String))
  cwd : Option String
  session_id : Option String
  agent : Option String
  binary : Option String
  deriving Repr

/-- The subset of daemon Options used by the modelled functions. -/
structure Options where
  workspace_dir : String
  home_dir : String
  agent_user : String
  deriving Repr

/-- Map insert on an association list: replace the value under an existing
key, else append.  Mirrors BTreeMap::insert for lookup/membership purposes
(iteration order is irrelevant to the claims). -/
def insertAL (m : List (String × String)) (k v : String) : List (String × String) :=
  if m.any (fun p => p.1 = k) then
    m.map (fun p => if p.1 = k then (k, v) else p)
  else
    m ++ [(k, v)]

/-- The per-entry filter in build_environment_map: an entry from the
request's env map is inserted iff this is true.  Lengths are Rust
String::len, i.e. UTF-8 byte counts. -/
def keepEnvEntry (k v : String) : Bool :=
  !(k.utf8ByteSize > 128 || k.isEmpty || v.utf8ByteSize > 16384)
    && k.data.all (fun c => c = '_' || ('A' ≤ c && c ≤ 'Z') || ('0' ≤ c && c ≤ '9'))

/-- The fold over the request's env entries: `continue` on filtered
entries, BTreeMap::insert on the rest. -/
def insertRequestEnv (m : List (String × String)) (entries : List (String × String)) :
    List (String × String) :=
  entries.foldl (fun acc kv => if keepEnvEntry kv.1 kv.2 then insertAL acc kv.1 kv.2 else acc) m

/-- The part of build_environment_map that precedes the request-env fold:
the six fixed base entries plus the optional CONTAINAI_AGENT_NAME /
CONTAINAI_SESSION_ID entries.  envAgent / envSession model the daemon's
AGENT_NAME / HOST_SESSION_ID environment variables. -/
def base_env_map (request : RunRequest) (options : Options)
    (envAgent envSession : Option String) : List (String × String) :=
  let base :=
    [("PATH", "/usr/local/sbin:/usr/local/bin:/usr/sbin:/usr/bin:/sbin:/bin"),
     ("HOME", options.home_dir),
     ("USER", options.agent_user),
     ("LOGNAME", options.agent_user),
     ("SHELL", "/bin/bash"),
     ("TERM", "xterm-256color")]
  let m1 := match (request.agent.orElse fun _ => envAgent) with
    | some agent => insertAL base "CONTAINAI_AGENT_NAME" agent
    | none => base
  match (request.session_id.orElse fun _ => envSession) with
  | some session => insertAL m1 "CONTAINAI_SESSION_ID" session
  | none => m1

/-- agent_task_runnerd.rs build_environment_map: base entries, then the
filtered request env entries folded in. -/
def build_environment_map (request : RunRequest) (options : Options)
    (envAgent envSession : Option String) : List (String × String) :=
  insertRequestEnv (base_env_map request options envAgent envSession) (request.env.getD [])

/-! ### Path components (std::path::Path semantics used by sanitize_cwd) -/

/-- A parsed path component, as produced by Path::components() on Unix:
the root directory, a leading `.` (CurDir), a `..` (ParentDir), or a
normal component. -/
inductive PComp where
  | root
  | cur
  | up
  | name (s : String)
  deriving DecidableEq, Repr

/-- Splits a character list on '/', producing the raw segments (empty
segments included, exactly as a split on the separator yields them). -/
def splitSlash : List Char → List Char → List String
  | [], acc => [String.mk acc.reverse]
  | '/' :: rest, acc => String.mk acc.reverse :: splitSlash rest []
  | c :: rest, acc => splitSlash rest (c :: acc)

/-- Path::components() on Unix: empty segments vanish, `.` segments are
normalized away except at the beginning of a relative path, `..` stays. -/
def parsePath (s : String) : List PComp :=
  let abs := match s.data with
    | '/' :: _ => true
    | _ => false
  let segs := (splitSlash s.data []).filter (fun seg => seg ≠ "")
  let comps := segs.filterMap (fun seg =>
    if seg = "." then none
    else if seg = ".." then some PComp.up
    else some (PComp.name seg))
  let lead :=
    if abs then [PComp.root]
    else
      match segs with
      | seg :: _ => if seg = "." then [PComp.cur] else []
      | [] => []
  lead ++ comps

/-- Path::starts_with: the base's component sequence is a prefix of the
path's component sequence (no `..` resolution). -/
def path_starts_with (p base : List PComp) : Bool :=
  match base, p with
  | [], _ => true
  | _ :: _, [] => false
  | b :: bs, a :: as => b = a && path_starts_with as bs

/-- agent_task_runnerd.rs sanitize_cwd: keep the requested cwd when its
components are prefixed by the workspace root, the agent home, or /tmp;
otherwise fall back to the workspace root. -/
def sanitize_cwd (requested : Option String) (options : Options) : String :=
  match requested with
  | some path =>
      if path_starts_with (parsePath path) (parsePath options.workspace_dir)
          || path_starts_with (parsePath path) (parsePath options.home_dir)
          || path_starts_with (parsePath path) (parsePath "/tmp")
      then path
      else options.workspace_dir
  | none => options.workspace_dir

/-- Modelled from the spec's claim wording only (not from source): resolve
`.` and `..` components the way the filesystem would on an existing
directory tree without symlinks — `..` pops the last normal component and
is absorbed at the root. -/
def resolveComps (acc : List PComp) : List PComp → List PComp
  | [] => acc.reverse
  | PComp.cur :: rest => resolveComps acc rest
  | PComp.root :: rest => resolveComps (PComp.root :: acc) rest
  | PComp.name s :: rest => resolveComps (PComp.name s :: acc) rest
  | PComp.up :: rest =>
      match acc with
      | PComp.name _ :: acc' => resolveComps acc' rest
      | PComp.root :: _ => resolveComps acc rest
      | _ => resolveComps (PComp.up :: acc) rest

/-- Resolved components of a path string (spec-side semantics for the
containment claim). -/
def resolvePath (s : String) : List PComp := resolveComps [] (parsePath s)

/-- Spec-side descendant-after-resolution test used by the containment
claim: after resolving `..`, the path still extends the root. -/
def descendant_resolved (p root : String) : Bool :=
  path_starts_with (resolvePath p) (resolvePath root)

/-! ## Run-session event order (daemon handle_run_session) -/

/-- Observable run-session event: an audit log entry, a frame sent to the
client, or the spawn of the sandbox child. -/
inductive SEv where
  | audit (action : String)
  | frame (msg_type : Nat)
  | spawnChild
  deriving DecidableEq, Repr

/-- agent_task_runnerd.rs handle_run_session, reduced to its event trace
after JSON decoding.  Empty argv bails out before anything else (no frame
is sent, no audit entry written, no child spawned).  Otherwise the
"run-start" audit entry is written, then the child is spawned: on spawn
failure a RUN_ERROR frame then a "run-error" audit entry; on success the
RUN_STARTED frame, the stdio frames (sent by helper threads, omitted
here), the RUN_EXIT frame, and the final audit entry.  The returned Bool
is whether the session function returns Ok. -/
def handle_run_session_trace (request : RunRequest) (spawnOk : Bool) (exitSuccess : Bool) :
    List SEv × Bool :=
  if request.argv.isEmpty then
    ([], false)
  else if spawnOk then
    ([SEv.audit "run-start", SEv.spawnChild, SEv.frame MSG_RUN_STARTED,
      SEv.frame MSG_RUN_EXIT, SEv.audit (if exitSuccess then "run-exit" else "run-error")],
     true)
  else
    ([SEv.audit "run-start", SEv.frame MSG_RUN_ERROR, SEv.audit "run-error"], false)

/-! ## Seccomp notification handling (daemon) -/

/-- seccomp.rs / libc constants: SECCOMP_USER_NOTIF_FLAG_CONTINUE = 1,
EPERM = 1, SYS_execve = 59, SYS_execveat = 322 (x86-64). -/
def SECCOMP_USER_NOTIF_FLAG_CONTINUE : Nat := 1

def EPERM : Int := 1

def SYS_execve : Int := 59

def SYS_execveat : Int := 322

/-- agent_task_runnerd.rs PATH_MAX = 4096. -/
def PATH_MAX : Nat := 4096

/-- The fields of seccomp.rs SeccompNotif consumed by handle_notification:
the notification id (u64), data.nr (i32) and data.args[0] (u64). -/
structure SeccompNotif where
  id : Nat
  nr : Int
  arg0 : Nat
  deriving DecidableEq, Repr

/-- seccomp.rs SeccompNotifResp. Default() zeroes every field. -/
structure SeccompNotifResp where
  id : Nat
  val : Int
  error : Int
  flags : Nat
  deriving DecidableEq, Repr

/-- Outcome of one read_remote call: `ok bytes` for a non-negative
process_vm_readv return (at most the requested length is filled in, which
resolve_exec_path re-truncates defensively), `err` for a negative one. -/
inductive ReadRes where
  | ok (chunk : List Nat)
  | err
  deriving DecidableEq, Repr

/-- A remote-memory read oracle: address and requested length to result,
standing for process_vm_readv against the traced process. -/
def ReadFn : Type := Nat → Nat → ReadRes

/-- The read loop of resolve_exec_path: bytes written into the
zero-initialized buffer, starting at `offset`.  Each iteration reads up to
PATH_MAX - offset bytes at addr + offset; a read error or a zero-length
read breaks; a chunk containing a NUL is written and then breaks; any
other chunk is written and the loop advances.  The fuel starts at PATH_MAX
and bounds the iteration count (each iteration consumes ≥ 1 byte of the
buffer, so PATH_MAX iterations suffice). -/
def fillBytes (readFn : ReadFn) (addr : Nat) : Nat → Nat → List Nat
  | _, 0 => []
  | offset, fuel + 1 =>
      if offset < PATH_MAX then
        match readFn (addr + offset) (PATH_MAX - offset) with
        | ReadRes.err => []
        | ReadRes.ok chunk =>
            let c := chunk.take (PATH_MAX - offset)
            if c.isEmpty then []
            else if c.contains 0 then c
            else c ++ fillBytes readFn addr (offset + c.length) fuel
      else []

/-- UTF-8 bytes of the literal "<unknown>". -/
def unknownPathBytes : List Nat := strBytes "<unknown>"

/-- agent_task_runnerd.rs resolve_exec_path.  The final buffer is the
written bytes followed by the untouched zero fill, and `end` is the index
of the first NUL (or PATH_MAX); since the zero fill starts right after the
written bytes, buffer.take end = takeWhile (· ≠ 0) of the written bytes.
Result bytes are then decoded lossily (not modelled; byte content is). -/
def resolve_exec_path (readFn : ReadFn) (addr : Nat) : List Nat :=
  if addr = 0 then unknownPathBytes
  else
    let written := (fillBytes readFn addr 0 PATH_MAX).takeWhile (· ≠ 0)
    if written.isEmpty then unknownPathBytes else written

/-- Daemon policy mode. -/
inductive PolicyMode where
  | observe
  | enforce
  deriving DecidableEq, Repr

/-- Byte-level str::starts_with. -/
def bytesStartWith (path pat : List Nat) : Bool :=
  pat.isPrefixOf path

/-- agent_task_runnerd.rs should_allow_path (paths as UTF-8 bytes; the two
literal patterns are ASCII, for which byte prefix and string prefix
agree). -/
def should_allow_path (path : List Nat) (policy : PolicyMode) : Bool :=
  match policy with
  | PolicyMode.observe => true
  | PolicyMode.enforce =>
      !(bytesStartWith path (strBytes "/run/agent-secrets")
        || bytesStartWith path (strBytes "/run/agent-data"))

/-- The audited path computed by handle_notification: the remote argv[0]
read for execve / execveat, the label "syscall-<nr>" otherwise. -/
def audited_path (readFn : ReadFn) (req : SeccompNotif) : List Nat :=
  if req.nr = SYS_execve ∨ req.nr = SYS_execveat then
    resolve_exec_path readFn req.arg0
  else
    strBytes ("syscall-" ++ toString req.nr)

/-- agent_task_runnerd.rs handle_notification, reduced to the response it
passes to send_response together with the audit action it logs.  resp
starts as Default (all zero); resp.id := req.id; the allow branch sets
flags = SECCOMP_USER_NOTIF_FLAG_CONTINUE, val = 0, error = 0; the deny
branch sets val = -EPERM (i64) and error = -EPERM (i32), leaving flags 0. -/
def handle_notification (readFn : ReadFn) (policy_mode : PolicyMode) (req : SeccompNotif) :
    SeccompNotifResp × String :=
  let path := audited_path readFn req
  let allow := should_allow_path path policy_mode
  if allow then
    ({ id := req.id, val := 0, error := 0, flags := SECCOMP_USER_NOTIF_FLAG_CONTINUE }, "allow")
  else
    ({ id := req.id, val := -EPERM, error := -EPERM, flags := 0 }, "deny")

/-- The policy verdict in the spec's words: allow in observe mode, and in
enforce mode exactly when the resolved path does not begin with
/run/agent-secrets or /run/agent-data. -/
def specPolicyAllows (policy : PolicyMode) (path : List Nat) : Bool :=
  match policy with
  | PolicyMode.observe => true
  | PolicyMode.enforce =>
      !(bytesStartWith path (strBytes "/run/agent-secrets"))
        && !(bytesStartWith path (strBytes "/run/agent-data"))

/-! # Claim theorems -/

/-- Claim C7: for every RUN_EXIT payload {code, signal, success}, the exit
code the client process terminates with equals code when code is present,
else 0 when success is true, else (signal when present, else 1) plus 128.
pump_session computes the code and real_main passes it to process::exit
(exiting 0 on the Ok path when the code is 0). -/
theorem c7_exit_code_law (code signal : Option Int) (success : Bool) :
    real_main_exit (pump_session_exit_code code signal success) =
      specExitCode code signal success := by
  cases code with
  | some c =>
      simp [real_main_exit, pump_session_exit_code, specExitCode, Option.orElse]
      intro h
      exact h.symm
  | none =>
      cases success with
      | true => simp [real_main_exit, pump_session_exit_code, specExitCode, Option.orElse]
      | false =>
          cases signal with
          | none =>
              simp [real_main_exit, pump_session_exit_code, specExitCode, Option.orElse,
                Option.getD]
          | some sg =>
              simp only [real_main_exit, pump_session_exit_code, specExitCode, Option.orElse,
                Option.getD, if_false, Bool.false_eq_true]
              split <;> omega

/-- Claim C5 (code bug exhibit): a payload of 128 KiB + 1 bytes passes the
only size validation in send_message (which checks just
payload.len() > u32::MAX) and is handed to sendmsg, so the channel does
not fail the send and does transmit the frame; the receive side, whose
buffer is HEADER_SIZE + MAX_MESSAGE_SIZE bytes, must reject the resulting
datagram as truncated. -/
theorem c5_oversized_send_not_rejected :
    send_message MSG_RUN_STDIN (MAX_MESSAGE_SIZE + 1) =
        Except.ok { msg_type := MSG_RUN_STDIN, length := MAX_MESSAGE_SIZE + 1,
                    payloadLen := MAX_MESSAGE_SIZE + 1 }
      ∧ MAX_MESSAGE_SIZE + 1 > MAX_MESSAGE_SIZE
      ∧ recv_message_size_check (HEADER_SIZE + (MAX_MESSAGE_SIZE + 1)) =
          Except.error "message truncated" := by
  refine ⟨by rfl, by decide, by rfl⟩

/-- Claim C2 (code bug exhibit): a REGISTER payload whose version field is
2 (≠ PROTOCOL_VERSION = 1) is accepted by add_client — the first free slot
of an empty 64-slot table is allocated and a "register" audit entry is
written; no code path compares payload.version with PROTOCOL_VERSION. -/
theorem c2_version_mismatch_accepted :
    (2 : Nat) ≠ PROTOCOL_VERSION
      ∧ add_client (List.replicate 64 none) true
            { version := 2, pid := 1234,
              agent_name := List.replicate AGENT_NAME_LEN 0,
              binary_name := List.replicate BINARY_NAME_LEN 0 } =
          Except.ok
            (some { has_notify_fd := true, pid := 1234, agent := [], binary := [] }
                :: List.replicate 63 none,
             ["register"]) := by
  exact ⟨by decide, by rfl⟩

/-- Claim C8 (counterexample): on a run request whose decoded argv is
empty, handle_run_session bails out with an error before the channel is
ever used — its event trace is empty, so in particular no RUN_ERROR frame
is sent, contradicting the claim that the session replies with a
RUN_ERROR frame. -/
theorem c8_empty_argv_no_run_error_frame :
    (handle_run_session_trace
          { argv := [], env := none, cwd := none,
            session_id := none, agent := none, binary := none } true true).2 = false
      ∧ SEv.frame MSG_RUN_ERROR ∉
          (handle_run_session_trace
              { argv := [], env := none, cwd := none,
                session_id := none, agent := none, binary := none } true true).1 := by
  exact ⟨by rfl, by decide⟩

/-- Claim C8 (amended): for every run request whose decoded argv is empty,
the run session returns an error without spawning a child process and
without sending any frame to the client (no RUN_ERROR reply either): the
event trace is empty and the session result is an error. -/
theorem c8_empty_argv_rejected (request : RunRequest) (spawnOk exitSuccess : Bool)
    (h : request.argv = []) :
    handle_run_session_trace request spawnOk exitSuccess = ([], false) := by
  simp [handle_run_session_trace, h]

/-- Witness for c8_empty_argv_rejected at a concrete empty-argv request. -/
theorem c8_empty_argv_rejected_witness :
    handle_run_session_trace
        { argv := [], env := none, cwd := none,
          session_id := none, agent := none, binary := none } true true = ([], false) :=
  c8_empty_argv_rejected
    { argv := [], env := none, cwd := none,
      session_id := none, agent := none, binary := none } true true rfl

/-- Claim C9 (counterexample): on a successful run the event trace is
run-start audit entry, then child spawn, then the RUN_STARTED frame — the
audit entry precedes both the spawn and the frame, contradicting the
claimed order (RUN_STARTED before the audit entry, both after the spawn). -/
theorem c9_audit_precedes_spawn_and_started :
    (handle_run_session_trace
          { argv := ["/bin/echo", "hi"], env := none, cwd := none,
            session_id := none, agent := none, binary := none } true true).1 =
        [SEv.audit "run-start", SEv.spawnChild, SEv.frame MSG_RUN_STARTED,
         SEv.frame MSG_RUN_EXIT, SEv.audit "run-exit"]
      ∧ List.indexOf (SEv.audit "run-start")
            (handle_run_session_trace
                { argv := ["/bin/echo", "hi"], env := none, cwd := none,
                  session_id := none, agent := none, binary := none } true true).1 <
          List.indexOf SEv.spawnChild
            (handle_run_session_trace
                { argv := ["/bin/echo", "hi"], env := none, cwd := none,
                  session_id := none, agent := none, binary := none } true true).1
      ∧ List.indexOf SEv.spawnChild
            (handle_run_session_trace
                { argv := ["/bin/echo", "hi"], env := none, cwd := none,
                  session_id := none, agent := none, binary := none } true true).1 <
          List.indexOf (SEv.frame MSG_RUN_STARTED)
            (handle_run_session_trace
                { argv := ["/bin/echo", "hi"], env := none, cwd := none,
                  session_id := none, agent := none, binary := none } true true).1 := by
  exact ⟨by rfl, by decide, by decide⟩

/-- Claim C9 (amended): in every run session whose argv is non-empty and
whose child spawns successfully, the run-start audit entry is written
first (before the child is spawned), then the child is spawned, then the
RUN_STARTED frame is sent to the client, then the RUN_EXIT frame, then the
final audit entry. -/
theorem c9_run_session_event_order (request : RunRequest) (exitSuccess : Bool)
    (h : request.argv ≠ []) :
    handle_run_session_trace request true exitSuccess =
      ([SEv.audit "run-start", SEv.spawnChild, SEv.frame MSG_RUN_STARTED,
        SEv.frame MSG_RUN_EXIT,
        SEv.audit (if exitSuccess then "run-exit" else "run-error")], true) := by
  simp [handle_run_session_trace, h]

/-- Witness for c9_run_session_event_order at a concrete request. -/
theorem c9_run_session_event_order_witness :
    handle_run_session_trace
        { argv := ["/bin/true"], env := none, cwd := none,
          session_id := none, agent := none, binary := none } true false =
      ([SEv.audit "run-start", SEv.spawnChild, SEv.frame MSG_RUN_STARTED,
        SEv.frame MSG_RUN_EXIT, SEv.audit "run-error"], true) :=
  c9_run_session_event_order
    { argv := ["/bin/true"], env := none, cwd := none,
      session_id := none, agent := none, binary := none } false (by decide)

/-! ### Helper lemmas -/

/-- takeWhile over an append whose left part satisfies the predicate. -/
theorem takeWhile_append_of_all {α : Type} (p : α → Bool) (l1 l2 : List α)
    (h : ∀ x ∈ l1, p x = true) :
    (l1 ++ l2).takeWhile p = l1 ++ l2.takeWhile p := by
  induction l1 with
  | nil => rfl
  | cons a l ih =>
      have ha : p a = true := h a (by simp)
      simp [List.takeWhile, ha]
      exact ih (fun x hx => h x (by simp [hx]))

/-- takeWhile (· ≠ 0) over a zero fill is empty. -/
theorem takeWhile_ne_zero_replicate (k : Nat) :
    (List.replicate k (0 : Nat)).takeWhile (· ≠ 0) = [] := by
  cases k with
  | zero => rfl
  | succ m => simp [List.replicate, List.takeWhile]

/-- Claim C10 (counterexample): the round trip is not the first
min(|s|, n-1) bytes of s when s itself contains a NUL byte: for
s = [97, 0, 98] (the UTF-8 bytes of "a\x00b", a valid non-empty string)
and n = 8, decoding stops at s's own NUL and yields [97], not
s.take (min 3 7) = [97, 0, 98]. -/
theorem c10_roundtrip_nul_cex :
    cstring_from_buf (write_cstring_buf 8 (some [97, 0, 98]) []) = [97]
      ∧ [97] ≠ ([97, 0, 98] : List Nat).take (min 3 (8 - 1)) := by
  exact ⟨by rfl, by decide⟩

/-- Claim C10 (amended): for every non-empty byte string s containing no
NUL byte and every buffer length n ≥ 1, writing s with write_cstring_buf
and decoding with cstring_from_buf yields the first min(|s|, n-1) bytes of
s; in particular it yields s itself whenever |s| < n.  (The code then
applies String::from_utf8_lossy, which maps equal byte lists to equal
strings and is the identity on valid UTF-8, so byte-level equality is the
full content of the claim.) -/
theorem c10_cstring_roundtrip (s fallback : List Nat) (n : Nat)
    (h1 : s ≠ []) (h2 : 0 ∉ s) (h3 : 1 ≤ n) :
    cstring_from_buf (write_cstring_buf n (some s) fallback) =
        s.take (min s.length (n - 1))
      ∧ (s.length < n →
          cstring_from_buf (write_cstring_buf n (some s) fallback) = s) := by
  have hne : s.isEmpty = false := by
    cases s with
    | nil => exact absurd rfl h1
    | cons a l => rfl
  have hmain : cstring_from_buf (write_cstring_buf n (some s) fallback) =
      s.take (min s.length (n - 1)) := by
    unfold write_cstring_buf chooseTrimmed
    simp only [hne, Bool.false_eq_true, if_false]
    unfold cstring_from_buf
    rw [takeWhile_append_of_all]
    · rw [takeWhile_ne_zero_replicate]
      simp
    · intro x hx
      have hxs : x ∈ s := List.mem_of_mem_take hx
      have : x ≠ 0 := fun h => h2 (h ▸ hxs)
      simpa using this
  refine ⟨hmain, fun hlt => ?_⟩
  rw [hmain]
  have : min s.length (n - 1) = s.length := by omega
  rw [this, List.take_length]

/-- Witness for c10_cstring_roundtrip: s = "hi" (bytes [104, 105]), n = 8. -/
theorem c10_cstring_roundtrip_witness :
    cstring_from_buf (write_cstring_buf 8 (some [104, 105]) []) =
        ([104, 105] : List Nat).take (min 2 (8 - 1))
      ∧ (([104, 105] : List Nat).length < 8 →
          cstring_from_buf (write_cstring_buf 8 (some [104, 105]) []) = [104, 105]) :=
  c10_cstring_roundtrip [104, 105] [] 8 (by decide) (by decide) (by decide)

/-! ### Environment-map membership -/

/-- Any member of insertAL m k v is a member of m or the inserted pair. -/
theorem mem_insertAL {m : List (String × String)} {k v k' v' : String}
    (h : (k', v') ∈ insertAL m k v) : (k', v') ∈ m ∨ (k' = k ∧ v' = v) := by
  unfold insertAL at h
  by_cases hany : m.any (fun p => p.1 = k)
  · simp only [hany, if_true] at h
    rcases List.mem_map.mp h with ⟨p, hp, heq⟩
    by_cases hpk : p.1 = k
    · simp only [hpk, if_true, Prod.mk.injEq] at heq
      right
      exact ⟨heq.1.symm, heq.2.symm⟩
    · simp only [hpk, if_false] at heq
      left
      exact heq ▸ hp
  · simp only [hany, if_false] at h
    rcases List.mem_append.mp h with h1 | h1
    · exact Or.inl h1
    · right
      have := List.mem_singleton.mp h1
      exact ⟨congrArg Prod.fst this, congrArg Prod.snd this⟩

/-- Any member of the env-entry fold is a member of the start map or a
kept request entry. -/
theorem mem_insertRequestEnv {es : List (String × String)}
    {m : List (String × String)} {k v : String}
    (h : (k, v) ∈ insertRequestEnv m es) :
    (k, v) ∈ m ∨ ((k, v) ∈ es ∧ keepEnvEntry k v = true) := by
  induction es generalizing m with
  | nil => exact Or.inl h
  | cons kv rest ih =>
      have hstep : insertRequestEnv m (kv :: rest) =
          insertRequestEnv (if keepEnvEntry kv.1 kv.2 then insertAL m kv.1 kv.2 else m) rest := by
        rfl
      rw [hstep] at h
      rcases ih h with h1 | h1
      · by_cases hk : keepEnvEntry kv.1 kv.2
        · simp only [hk, if_true] at h1
          rcases mem_insertAL h1 with h2 | h2
          · exact Or.inl h2
          · right
            refine ⟨?_, ?_⟩
            · rw [h2.1, h2.2]
              simp
            · rw [h2.1, h2.2]
              exact hk
        · simp only [hk, if_false] at h1
          exact Or.inl h1
      · exact Or.inr ⟨List.mem_cons_of_mem kv h1.1, h1.2⟩

/-- Claim C6: every entry of the child environment map is either part of
the base map (the fixed entries plus agent/session, independent of the
request's env) or a request env entry that passed the filter — empty keys,
keys longer than 128 bytes, keys with a character outside [A-Z0-9_], and
values longer than 16384 bytes never contribute an entry; such entries are
silently dropped. -/
theorem c6_env_scrubbing (request : RunRequest) (options : Options)
    (envAgent envSession : Option String) (k v : String)
    (h : (k, v) ∈ build_environment_map request options envAgent envSession) :
    (k, v) ∈ base_env_map request options envAgent envSession
      ∨ ((k, v) ∈ request.env.getD [] ∧ keepEnvEntry k v = true) :=
  mem_insertRequestEnv h

/-- Witness for c6_env_scrubbing: the valid request entry ("FOO", "1")
survives into the child environment. -/
theorem c6_env_scrubbing_witness :
    (("FOO", "1") ∈ build_environment_map
        { argv := ["ls"], env := some [("FOO", "1"), ("bad key", "x")], cwd := none,
          session_id := none, agent := none, binary := none }
        { workspace_dir := "/workspace", home_dir := "/home/agentuser",
          agent_user := "agentuser" } none none)
      ∧ ((("FOO", "1") ∈ base_env_map
            { argv := ["ls"], env := some [("FOO", "1"), ("bad key", "x")], cwd := none,
              session_id := none, agent := none, binary := none }
            { workspace_dir := "/workspace", home_dir := "/home/agentuser",
              agent_user := "agentuser" } none none)
          ∨ ((("FOO", "1") ∈
                ({ argv := ["ls"], env := some [("FOO", "1"), ("bad key", "x")], cwd := none,
                   session_id := none, agent := none, binary := none } : RunRequest).env.getD [])
              ∧ keepEnvEntry "FOO" "1" = true)) := by
  refine ⟨by decide, ?_⟩
  exact c6_env_scrubbing
    { argv := ["ls"], env := some [("FOO", "1"), ("bad key", "x")], cwd := none,
      session_id := none, agent := none, binary := none }
    { workspace_dir := "/workspace", home_dir := "/home/agentuser",
      agent_user := "agentuser" } none none "FOO" "1" (by decide)

/-- Claim C3 (counterexample): sanitize_cwd accepts the requested cwd
"/workspace/../etc" (its components are prefixed by /workspace; Rust
Path::starts_with does not resolve ".."), yet under resolved-".."
semantics the returned path lies under none of the workspace root, the
agent home, or /tmp — it escapes to /etc. -/
theorem c3_sanitize_cwd_dotdot_escape :
    sanitize_cwd (some "/workspace/../etc")
        { workspace_dir := "/workspace", home_dir := "/home/agentuser",
          agent_user := "agentuser" } = "/workspace/../etc"
      ∧ resolvePath "/workspace/../etc" = [PComp.root, PComp.name "etc"]
      ∧ descendant_resolved "/workspace/../etc" "/workspace" = false
      ∧ descendant_resolved "/workspace/../etc" "/home/agentuser" = false
      ∧ descendant_resolved "/workspace/../etc" "/tmp" = false := by
  exact ⟨by decide, by decide, by decide, by decide, by decide⟩

/-- Claim C3 (amended): sanitize_cwd returns either the workspace root or
the requested cwd, and it returns the requested cwd only when that path's
components are prefixed (without resolving "..") by the workspace root,
the agent home, or /tmp; since ".." components are not resolved, an
accepted path may still escape those roots after resolution. -/
theorem c3_sanitize_cwd_prefix_containment (requested : Option String) (options : Options) :
    sanitize_cwd requested options = options.workspace_dir
      ∨ (requested = some (sanitize_cwd requested options)
          ∧ (path_starts_with (parsePath (sanitize_cwd requested options))
                (parsePath options.workspace_dir)
              || path_starts_with (parsePath (sanitize_cwd requested options))
                  (parsePath options.home_dir)
              || path_starts_with (parsePath (sanitize_cwd requested options))
                  (parsePath "/tmp")) = true) := by
  cases requested with
  | none => exact Or.inl rfl
  | some p =>
      by_cases hc : (path_starts_with (parsePath p) (parsePath options.workspace_dir)
          || path_starts_with (parsePath p) (parsePath options.home_dir)
          || path_starts_with (parsePath p) (parsePath "/tmp")) = true
      · right
        constructor
        · simp [sanitize_cwd, hc]
        · simp [sanitize_cwd, hc]
      · left
        simp only [sanitize_cwd]
        rw [if_neg]
        exact hc

/-- Claim C1: for every seccomp notification, the response passed to
NOTIF_SEND has id equal to the request's id, and its fields encode the
policy verdict exactly: when the policy allows (observe mode, or enforce
mode with an audited path not beginning with /run/agent-secrets or
/run/agent-data) the response is
flags = SECCOMP_USER_NOTIF_FLAG_CONTINUE, val = 0, error = 0; when the
policy denies it is val = -EPERM, error = -EPERM (flags left 0). -/
theorem c1_notification_response (readFn : ReadFn) (mode : PolicyMode) (req : SeccompNotif) :
    (handle_notification readFn mode req).1.id = req.id
      ∧ (handle_notification readFn mode req).1 =
          (if specPolicyAllows mode (audited_path readFn req) then
            { id := req.id, val := 0, error := 0, flags := SECCOMP_USER_NOTIF_FLAG_CONTINUE }
          else
            { id := req.id, val := -EPERM, error := -EPERM, flags := 0 }) := by
  have hpol : should_allow_path (audited_path readFn req) mode =
      specPolicyAllows mode (audited_path readFn req) := by
    cases mode with
    | observe => rfl
    | enforce =>
        simp [should_allow_path, specPolicyAllows, Bool.not_or]
  constructor
  · simp only [handle_notification]
    split <;> rfl
  · simp only [handle_notification]
    rw [hpol]
    split <;> simp_all

/-! ### resolve_exec_path lemmas -/

/-- One unfolding of the read loop for positive fuel. -/
theorem fillBytes_pos (f : ReadFn) (a offset fuel : Nat) (h : 0 < fuel) :
    fillBytes f a offset fuel =
      if offset < PATH_MAX then
        match f (a + offset) (PATH_MAX - offset) with
        | ReadRes.err => []
        | ReadRes.ok chunk =>
            let c := chunk.take (PATH_MAX - offset)
            if c.isEmpty then []
            else if c.contains 0 then c
            else c ++ fillBytes f a (offset + c.length) (fuel - 1)
      else [] := by
  cases fuel with
  | zero => omega
  | succ n => rfl

/-- The read loop never writes more than the remaining buffer space. -/
theorem fillBytes_length_le (f : ReadFn) (a : Nat) :
    ∀ fuel offset, (fillBytes f a offset fuel).length ≤ PATH_MAX - offset := by
  intro fuel
  induction fuel with
  | zero =>
      intro offset
      simp [fillBytes]
  | succ n ih =>
      intro offset
      rw [fillBytes_pos f a offset (n + 1) (Nat.succ_pos n)]
      split
      · split
        · simp
        · rename_i chunk heq
          dsimp only
          split
          · simp
          · split
            · rw [List.length_take]
              omega
            · have h2 := ih (offset + (chunk.take (PATH_MAX - offset)).length)
              have h1 : (chunk.take (PATH_MAX - offset)).length ≤ PATH_MAX - offset := by
                rw [List.length_take]
                omega
              simp only [List.length_append, Nat.add_sub_cancel]
              omega
      · simp

/-- A concrete remote-read oracle: the first read (at address 1000)
returns the five bytes "hello" with no NUL; every later read fails. -/
def cexReadFn : ReadFn := fun a _ =>
  if a = 1000 then ReadRes.ok [104, 101, 108, 108, 111] else ReadRes.err

/-- Claim C4 (counterexample): with the oracle cexReadFn a read error
occurs at offset 5, before any NUL byte has been found, yet
resolve_exec_path returns the five bytes already read ("hello") instead of
"<unknown>" — the code only falls back to "<unknown>" when the first NUL
position in the buffer is 0. -/
theorem c4_partial_read_cex :
    cexReadFn (1000 + 5) (PATH_MAX - 5) = ReadRes.err
      ∧ resolve_exec_path cexReadFn 1000 = [104, 101, 108, 108, 111]
      ∧ ([104, 101, 108, 108, 111] : List Nat) ≠ unknownPathBytes := by
  exact ⟨by rfl, by decide, by decide⟩

/-- Claim C4 (amended): resolve_exec_path returns "<unknown>" when the
address is zero, or when a read error occurs before any non-NUL byte has
been read (in particular when the very first read fails); when a read
error occurs after some non-NUL bytes have been read, it returns exactly
those bytes; when the first chunk read contains a NUL preceded by at least
one non-NUL byte, it returns the bytes up to (excluding) that first NUL;
and the result never exceeds PATH_MAX bytes. -/
theorem c4_resolve_exec_path_amended (readFn : ReadFn) (addr : Nat) (c : List Nat) :
    resolve_exec_path readFn 0 = unknownPathBytes
      ∧ (addr ≠ 0 → readFn addr PATH_MAX = ReadRes.err →
          resolve_exec_path readFn addr = unknownPathBytes)
      ∧ (addr ≠ 0 → readFn addr PATH_MAX = ReadRes.ok c → c ≠ [] → (0 : Nat) ∉ c →
          c.length < PATH_MAX →
          readFn (addr + c.length) (PATH_MAX - c.length) = ReadRes.err →
          resolve_exec_path readFn addr = c)
      ∧ (addr ≠ 0 → readFn addr PATH_MAX = ReadRes.ok c → (0 : Nat) ∈ c.take PATH_MAX →
          (c.take PATH_MAX).takeWhile (· ≠ 0) ≠ [] →
          resolve_exec_path readFn addr = (c.take PATH_MAX).takeWhile (· ≠ 0))
      ∧ (resolve_exec_path readFn addr).length ≤ PATH_MAX := by
  have hPMpos : 0 < PATH_MAX := by decide
  refine ⟨by simp [resolve_exec_path], ?_, ?_, ?_, ?_⟩
  · intro h0 herr
    rw [resolve_exec_path, if_neg h0]
    rw [fillBytes_pos readFn addr 0 PATH_MAX hPMpos, if_pos hPMpos]
    simp only [Nat.add_zero, Nat.sub_zero, herr]
    rfl
  · intro h0 hok hne hnz hlen herr
    rw [resolve_exec_path, if_neg h0]
    rw [fillBytes_pos readFn addr 0 PATH_MAX hPMpos, if_pos hPMpos]
    simp only [Nat.add_zero, Nat.sub_zero, hok]
    have htake : c.take PATH_MAX = c := List.take_of_length_le (Nat.le_of_lt hlen)
    rw [htake]
    have hemp : c.isEmpty = false := by
      cases c with
      | nil => exact absurd rfl hne
      | cons a l => rfl
    rw [hemp]
    have hcon : c.contains 0 = false := by
      rw [List.contains, List.elem_eq_mem]
      simpa using hnz
    rw [hcon]
    simp only [Bool.false_eq_true, if_false]
    rw [fillBytes_pos readFn addr (0 + c.length) (PATH_MAX - 1)
        (by decide), Nat.zero_add, if_pos hlen, herr]
    dsimp only
    have hall : ∀ x ∈ c, (x ≠ 0 : Bool) = true := by
      intro x hx
      have : x ≠ 0 := fun hx0 => hnz (hx0 ▸ hx)
      simpa using this
    rw [takeWhile_append_of_all _ c [] hall]
    simp only [List.takeWhile_nil, List.append_nil]
    rw [hemp]
    simp
  · intro h0 hok hmem hnz
    rw [resolve_exec_path, if_neg h0]
    rw [fillBytes_pos readFn addr 0 PATH_MAX hPMpos, if_pos hPMpos]
    simp only [Nat.add_zero, Nat.sub_zero, hok]
    have hemp : (c.take PATH_MAX).isEmpty = false := by
      cases htk : c.take PATH_MAX with
      | nil => rw [htk] at hmem; simp at hmem
      | cons a l => rfl
    rw [hemp]
    have hcon : (c.take PATH_MAX).contains 0 = true := by
      rw [List.contains, List.elem_eq_mem]
      simpa using hmem
    rw [hcon]
    simp only [Bool.false_eq_true, if_false, if_true]
    have : ((c.take PATH_MAX).takeWhile (· ≠ 0)).isEmpty = false := by
      cases htw : (c.take PATH_MAX).takeWhile (· ≠ 0) with
      | nil => exact absurd htw hnz
      | cons a l => rfl
    rw [this]
    simp
  · rw [resolve_exec_path]
    split
    · decide
    · dsimp only
      split
      · decide
      · have h1 : (fillBytes readFn addr 0 PATH_MAX).length ≤ PATH_MAX := by
          have := fillBytes_length_le readFn addr PATH_MAX 0
          simpa using this
        have h2 := (List.takeWhile_prefix
          (l := fillBytes readFn addr 0 PATH_MAX) (· ≠ 0)).length_le
        omega

/-- A concrete remote-read oracle for the witness: the first read (at
address 2000) returns the four bytes "/bin" with no NUL; later reads
fail. -/
def witReadFn : ReadFn := fun a _ =>
  if a = 2000 then ReadRes.ok [47, 98, 105, 110] else ReadRes.err

/-- Witness for c4_resolve_exec_path_amended: instantiating the mid-read
error conjunct at witReadFn recovers the partial bytes "/bin". -/
theorem c4_resolve_exec_path_amended_witness :
    resolve_exec_path witReadFn 2000 = [47, 98, 105, 110] :=
  (c4_resolve_exec_path_amended witReadFn 2000 [47, 98, 105, 110]).2.2.1
    (by decide) (by rfl) (by decide) (by decide) (by decide) (by rfl)

end ContainAI
